import Mathlib

/-!
Verification of the voicechatlogs monitor core (src/bot.py, src/config.py).

The monitor classifies voice-chat participants as channels and bans them
(`is_channel`, `ban_channel`, `check_and_ban_channels`), and declares a
per-identity mute-history for burst detection (`mute_history`,
`MUTE_SPAM_THRESHOLD`, `TIME_WINDOW`).  The classification and ban logic is
embedded below directly from src/bot.py; the burst-detection step, whose
declaration and configuration are in src but whose recording logic is not,
is modelled from the specification.
-/

namespace VoiceChatLogs

/-- Result of `client.get_entity(participant.id)` in `is_channel`
(src/bot.py line 129): the attributes of the looked-up entity that
`is_channel` probes.  `hasattr(user, a) and user.a` with a boolean
attribute is a `Bool` (absent attribute behaves as `false`);
`hasattr(user, 'username') and user.username` is an `Option String`
(absent attribute and `None` behave alike). -/
structure Entity where
  broadcast : Bool
  megagroup : Bool
  username : Option String
deriving DecidableEq, Repr

/-- A participant record as consumed by `check_and_ban_channels` and
`is_channel` (src/bot.py).  `isChannelInstance` is
`isinstance(participant, Channel)` (line 125); `entity` is the outcome of
the `get_entity` lookup, `none` meaning the lookup raised an exception
(caught at line 138).  `username`, `first_name`, `last_name`, `title` are
the `getattr(participant, field, '')` values read at lines 216-219. -/
structure Participant where
  id : Int
  bot : Bool
  isChannelInstance : Bool
  entity : Option Entity
  username : String
  first_name : String
  last_name : String
  title : String
deriving DecidableEq, Repr

/-- Python's `in` on strings, over character lists: `hasSubstr pat l` is
true iff `pat` occurs as a contiguous sublist of `l`. -/
def hasSubstr (pat : List Char) : List Char → Bool
  | [] => pat.isEmpty
  | c :: cs => pat.isPrefixOf (c :: cs) || hasSubstr pat cs

/-- Python's `str.lower`, over the string's characters: lower-case each
character. -/
def lowerChars (l : List Char) : List Char := l.map Char.toLower

/-- `'channel' in user.username.lower()` guarded by
`hasattr(user, 'username') and user.username` (src/bot.py line 134):
the username is present, non-empty, and case-insensitively contains the
literal substring "channel". -/
def usernameChannelSignal : Option String → Bool
  | none => false
  | some s => !s.isEmpty && hasSubstr "channel".toList (lowerChars s.toList)

/-- `is_channel` (src/bot.py lines 121-140): a participant is a channel if
it is a `Channel` instance, or the looked-up entity has a truthy
`broadcast` or `megagroup` attribute, or its username contains "channel";
any exception in the body (modelled: the entity lookup raising, i.e.
`entity = none`) is caught and yields `False`. -/
def is_channel (p : Participant) : Bool :=
  if p.isChannelInstance then true
  else
    match p.entity with
    | none => false
    | some u =>
      if u.broadcast then true
      else if u.megagroup then true
      else if usernameChannelSignal u.username then true
      else false

/-- The checks of `is_channel`, in source order, for reporting which rule
fired (the specification's `ClassificationResult`). -/
inductive ChannelRule
  | channelInstance
  | broadcast
  | megagroup
  | usernameChannel
deriving DecidableEq, Repr

/-- Which check of `is_channel` (src/bot.py lines 121-140) returns `True`
first, mirroring the early returns of the source; `none` when the
function returns `False` (including the exception path). -/
def is_channel_rule (p : Participant) : Option ChannelRule :=
  if p.isChannelInstance then some .channelInstance
  else
    match p.entity with
    | none => none
    | some u =>
      if u.broadcast then some .broadcast
      else if u.megagroup then some .megagroup
      else if usernameChannelSignal u.username then some .usernameChannel
      else none

/-- The rules of `is_channel` that correspond to the specification's
`isExplicitChannelType` signal: the platform schema tags the entity as a
channel (`Channel` instance), broadcast, or megagroup. -/
def ChannelRule.isExplicitType : ChannelRule → Bool
  | .channelInstance => true
  | .broadcast => true
  | .megagroup => true
  | .usernameChannel => false

/-- The specification's `isExplicitChannelType` field, in terms of the
source's signals: the participant is a `Channel` instance, or its
looked-up entity is flagged broadcast or megagroup. -/
def isExplicitChannelType (p : Participant) : Bool :=
  p.isChannelInstance ||
    (match p.entity with
     | none => false
     | some u => u.broadcast || u.megagroup)

/-- Outcome of one `ban_channel` call: the updated `banned_channels` set,
the returned boolean, and whether the `EditBannedRequest` ban action was
issued. -/
structure BanOutcome where
  banned : Finset Int
  returned : Bool
  attempted : Bool
deriving DecidableEq

/-- `ban_channel` (src/bot.py lines 142-184): if the id is already in
`banned_channels`, return `False` without any action; otherwise issue the
`EditBannedRequest` (`rpcOk` says whether it succeeds), and on success add
the id to `banned_channels` and return `True`; an exception from the
request is caught and yields `False` with the set unchanged. -/
def ban_channel (rpcOk : Bool) (banned : Finset Int) (channel_id : Int) : BanOutcome :=
  if channel_id ∈ banned then ⟨banned, false, false⟩
  else if rpcOk then ⟨insert channel_id banned, true, true⟩
  else ⟨banned, false, true⟩

/-- Display-name derivation in `check_and_ban_channels`
(src/bot.py lines 221-229): `title` if truthy, else
`first_name + " " + last_name` if both truthy, else `first_name` if
truthy, else `"Channel" + user_id`. -/
def display_name (title first_name last_name : String) (user_id : Int) : String :=
  if title ≠ "" then title
  else if first_name ≠ "" ∧ last_name ≠ "" then first_name ++ " " ++ last_name
  else if first_name ≠ "" then first_name
  else "Channel" ++ toString user_id

/-- The per-participant classification decision of the pipeline
`check_and_ban_channels` (src/bot.py lines 205-241): bots are skipped at
line 210 before `is_channel` is consulted at line 214. -/
def pipeline_classifies (p : Participant) : Bool :=
  !p.bot && is_channel p

/-- One iteration of the loop of `check_and_ban_channels`
(src/bot.py lines 208-238) on a single participant: skip bots, classify,
and ban classified channels; returns the updated `banned_channels` set
and the list of ids for which a ban action was issued. -/
def check_one (rpc : Int → Bool) (banned : Finset Int) (p : Participant) :
    Finset Int × List Int :=
  if p.bot then (banned, [])
  else if is_channel p then
    let out := ban_channel (rpc p.id) banned p.id
    (out.banned, if out.attempted then [p.id] else [])
  else (banned, [])

/-- `check_and_ban_channels` (src/bot.py lines 205-241) over a
participant list, threading the `banned_channels` set and collecting the
ids for which a ban action was issued. -/
def check_and_ban_channels (rpc : Int → Bool) (banned : Finset Int) :
    List Participant → Finset Int × List Int
  | [] => (banned, [])
  | p :: ps =>
    let r := check_one rpc banned p
    let rest := check_and_ban_channels rpc r.1 ps
    (rest.1, r.2 ++ rest.2)

/-- Burst-detector parameters.  src/config.py gives
`MUTE_SPAM_THRESHOLD = 3` and `TIME_WINDOW = 30`; the history capacity is
the `deque(maxlen=10)` of `mute_history` (src/bot.py line 41). -/
structure BurstParams where
  threshold : Nat
  window : Int
  capacity : Nat
deriving DecidableEq, Repr

/-- The observed configuration: threshold 3, window 30 seconds,
capacity 10. -/
def observedBurstParams : BurstParams := ⟨3, 30, 10⟩

/-- Python `deque(maxlen=cap)` append semantics: append `t` on the right
and keep only the most recent `cap` entries, evicting from the left. -/
def dequeAppend (cap : Nat) (hist : List Int) (t : Int) : List Int :=
  let l := hist ++ [t]
  l.drop (l.length - cap)

/-- Modelled from the spec: the burst-check step `recordAndCheck`
(spec section 4.2).  src/bot.py only declares the per-identity history
`mute_history = defaultdict(lambda: deque(maxlen=10))` (line 41) and
imports `MUTE_SPAM_THRESHOLD` and `TIME_WINDOW`; the code that records an
event and checks the threshold is absent from src.  Per the spec: append
the timestamp (bounded deque, oldest evicted first), count entries whose
timestamp exceeds now minus the window (now being the current event's
timestamp), and if the count reaches the threshold, alarm and clear the
entire history; otherwise keep the history. -/
def recordAndCheck (P : BurstParams) (hist : List Int) (t : Int) :
    List Int × Bool :=
  let h1 := dequeAppend P.capacity hist t
  let cnt := (h1.filter (fun ts => decide (t - P.window < ts))).length
  if P.threshold ≤ cnt then ([], true) else (h1, false)

/-- The burst-detector state: the per-identity history map
(`mute_history`, src/bot.py line 41); a missing identity has the empty
history (`defaultdict`). -/
def BurstState : Type := Int → List Int

/-- The initial, empty history map. -/
def emptyBurst : BurstState := fun _ => []

/-- Modelled from the spec: recording one event for an identity updates
only that identity's history via `recordAndCheck` and reports whether it
alarmed. -/
def recordEvent (P : BurstParams) (s : BurstState) (idt t : Int) :
    BurstState × Bool :=
  let r := recordAndCheck P (s idt) t
  (fun j => if j = idt then r.1 else s j, r.2)

/-- Run the burst detector over a list of event timestamps for one
identity. -/
def runBurst (P : BurstParams) (s : BurstState) (idt : Int) :
    List Int → BurstState
  | [] => s
  | t :: ts => runBurst P (recordEvent P s idt t).1 idt ts

/-- A burst check whose history is strictly below the threshold even
after the append cannot alarm: it keeps the (bounded) appended history. -/
theorem recordAndCheck_below (P : BurstParams) (hist : List Int) (t : Int)
    (h : hist.length + 1 < P.threshold) :
    recordAndCheck P hist t = (dequeAppend P.capacity hist t, false) := by
  unfold recordAndCheck
  have hlen : (dequeAppend P.capacity hist t).length ≤ hist.length + 1 := by
    unfold dequeAppend
    simp [List.length_drop]
  have hcnt := List.length_filter_le (fun ts => decide (t - P.window < ts))
    (dequeAppend P.capacity hist t)
  rw [if_neg]
  omega

/-- Under the observed parameters, a third event within the window of the
two retained ones alarms and clears the history. -/
theorem recordAndCheck_three (t1 t2 t3 : Int) (h1 : t3 - 30 < t1)
    (h2 : t3 - 30 < t2) :
    recordAndCheck observedBurstParams [t1, t2] t3 = ([], true) := by
  have h3 : t3 - 30 < t3 := by omega
  unfold recordAndCheck dequeAppend observedBurstParams
  simp [List.filter, h1, h2, h3]

/-- The history produced by one burst check never exceeds the capacity. -/
theorem recordAndCheck_length_le (P : BurstParams) (hist : List Int) (t : Int) :
    ((recordAndCheck P hist t).1).length ≤ P.capacity := by
  unfold recordAndCheck dequeAppend
  dsimp only
  split
  · simp
  · simp [List.length_drop]
    omega

/-- Running the detector preserves the per-identity capacity bound of the
history map. -/
theorem runBurst_inv (P : BurstParams) (events : List Int) :
    ∀ (s : BurstState) (idt : Int),
      (∀ j, (s j).length ≤ P.capacity) →
      ∀ j, ((runBurst P s idt events) j).length ≤ P.capacity := by
  induction events with
  | nil => intro s idt hs j; exact hs j
  | cons t ts ih =>
    intro s idt hs j
    unfold runBurst
    apply ih
    intro j2
    unfold recordEvent
    dsimp only
    split
    · exact recordAndCheck_length_le P (s idt) t
    · exact hs j2

/-- Claim C1: a participant with a truthy `bot` attribute is never
classified as a channel by the pipeline and is never banned:
`check_and_ban_channels` skips it before `is_channel` runs, leaving the
`banned_channels` set unchanged and issuing no ban, whatever the other
fields hold (explicit channel type included). -/
theorem c1_bot_exclusion (rpc : Int → Bool) (banned : Finset Int)
    (p : Participant) (hbot : p.bot = true) :
    pipeline_classifies p = false ∧ check_one rpc banned p = (banned, []) := by
  simp [pipeline_classifies, check_one, hbot]

/-- Claim C1 witness: a bot that is also an explicit channel
(`Channel` instance, broadcast entity, username containing "channel") is
not classified and not banned. -/
theorem c1_bot_exclusion_witness :
    pipeline_classifies
        ⟨77, true, true, some ⟨true, false, some "somechannel"⟩,
          "somechannel", "", "", ""⟩ = false ∧
    check_one (fun _ => true) (∅ : Finset Int)
        ⟨77, true, true, some ⟨true, false, some "somechannel"⟩,
          "somechannel", "", "", ""⟩
      = ((∅ : Finset Int), []) :=
  c1_bot_exclusion (fun _ => true) ∅
    ⟨77, true, true, some ⟨true, false, some "somechannel"⟩,
      "somechannel", "", "", ""⟩ rfl

/-- Claim C2: a non-bot participant carrying the platform's explicit
channel signal (`Channel` instance, or looked-up entity flagged broadcast
or megagroup) is classified as a channel by `is_channel` and by the
pipeline, and the rule that fires is an explicit-type rule, whatever the
other fields hold. -/
theorem c2_explicit_type_rule (p : Participant)
    (hx : isExplicitChannelType p = true) (hb : p.bot = false) :
    is_channel p = true ∧ pipeline_classifies p = true ∧
    ∃ r, is_channel_rule p = some r ∧ r.isExplicitType = true := by
  unfold isExplicitChannelType at hx
  by_cases hc : p.isChannelInstance
  · refine ⟨by simp [is_channel, hc],
      by simp [pipeline_classifies, is_channel, hc, hb], ?_⟩
    exact ⟨.channelInstance, by simp [is_channel_rule, hc], rfl⟩
  · simp [hc] at hx
    match he : p.entity with
    | none => rw [he] at hx; simp at hx
    | some u =>
      rw [he] at hx
      simp at hx
      by_cases hbr : u.broadcast
      · refine ⟨by simp [is_channel, hc, he, hbr],
          by simp [pipeline_classifies, is_channel, hc, he, hbr, hb], ?_⟩
        exact ⟨.broadcast, by simp [is_channel_rule, hc, he, hbr], rfl⟩
      · have hm : u.megagroup = true := by
          rcases hx with h | h
          · exact absurd h hbr
          · exact h
        refine ⟨by simp [is_channel, hc, he, hbr, hm],
          by simp [pipeline_classifies, is_channel, hc, he, hbr, hm, hb], ?_⟩
        exact ⟨.megagroup, by simp [is_channel_rule, hc, he, hbr, hm], rfl⟩

/-- Claim C2 witness: a non-bot participant whose looked-up entity is
flagged broadcast is classified as a channel via an explicit-type rule. -/
theorem c2_explicit_type_rule_witness :
    is_channel ⟨88, false, false, some ⟨true, false, none⟩, "", "", "", ""⟩
      = true ∧
    pipeline_classifies
        ⟨88, false, false, some ⟨true, false, none⟩, "", "", "", ""⟩ = true ∧
    ∃ r, is_channel_rule
        ⟨88, false, false, some ⟨true, false, none⟩, "", "", "", ""⟩
      = some r ∧ r.isExplicitType = true :=
  c2_explicit_type_rule
    ⟨88, false, false, some ⟨true, false, none⟩, "", "", "", ""⟩
    (by decide) rfl

/-- Claim C3: with the observed parameters (threshold 3, window 30,
capacity 10), three events for one identity whose first two timestamps
lie within the trailing 30-second window of the third make the first two
checks pass, the third check alarm and clear that identity's entire
history, and a lone fourth event after the reset not alarm. -/
theorem c3_burst_alarm_and_reset (idt t1 t2 t3 t4 : Int)
    (h1 : t3 - 30 < t1) (h2 : t3 - 30 < t2) :
    (recordEvent observedBurstParams emptyBurst idt t1).2 = false ∧
    (recordEvent observedBurstParams
        (recordEvent observedBurstParams emptyBurst idt t1).1 idt t2).2
      = false ∧
    (recordEvent observedBurstParams
        (recordEvent observedBurstParams
          (recordEvent observedBurstParams emptyBurst idt t1).1 idt t2).1
        idt t3).2 = true ∧
    (recordEvent observedBurstParams
        (recordEvent observedBurstParams
          (recordEvent observedBurstParams emptyBurst idt t1).1 idt t2).1
        idt t3).1 idt = [] ∧
    (recordEvent observedBurstParams
        (recordEvent observedBurstParams
          (recordEvent observedBurstParams
            (recordEvent observedBurstParams emptyBurst idt t1).1 idt t2).1
          idt t3).1 idt t4).2 = false := by
  have e1 : recordAndCheck observedBurstParams [] t1 = ([t1], false) := by
    rw [recordAndCheck_below _ _ _ (by simp [observedBurstParams])]
    simp [dequeAppend, observedBurstParams]
  have e2 : recordAndCheck observedBurstParams [t1] t2 = ([t1, t2], false) := by
    rw [recordAndCheck_below _ _ _ (by simp [observedBurstParams])]
    simp [dequeAppend, observedBurstParams]
  have e3 := recordAndCheck_three t1 t2 t3 h1 h2
  have e4 : recordAndCheck observedBurstParams [] t4 = ([t4], false) := by
    rw [recordAndCheck_below _ _ _ (by simp [observedBurstParams])]
    simp [dequeAppend, observedBurstParams]
  simp [recordEvent, emptyBurst, e1, e2, e3, e4]

/-- Claim C3 witness: events at 0, 5, 10 alarm on the third and clear
the history; a lone event at 35 afterwards does not alarm. -/
theorem c3_burst_alarm_and_reset_witness :
    (recordEvent observedBurstParams emptyBurst 1 0).2 = false ∧
    (recordEvent observedBurstParams
        (recordEvent observedBurstParams emptyBurst 1 0).1 1 5).2 = false ∧
    (recordEvent observedBurstParams
        (recordEvent observedBurstParams
          (recordEvent observedBurstParams emptyBurst 1 0).1 1 5).1
        1 10).2 = true ∧
    (recordEvent observedBurstParams
        (recordEvent observedBurstParams
          (recordEvent observedBurstParams emptyBurst 1 0).1 1 5).1
        1 10).1 1 = [] ∧
    (recordEvent observedBurstParams
        (recordEvent observedBurstParams
          (recordEvent observedBurstParams
            (recordEvent observedBurstParams emptyBurst 1 0).1 1 5).1
          1 10).1 1 35).2 = false :=
  c3_burst_alarm_and_reset 1 0 5 10 35 (by decide) (by decide)

/-- Claim C4 counterexample: the record the claim says must be classified
as a channel via the username-keyword rule — username "football_chat",
empty first and last name — is NOT classified as a channel by the source:
`is_channel` only looks for the substring "channel" in the username, and
there is no rule for "chat", "group", "bot", nor a
no-name-but-has-username rule. -/
theorem c4_counterexample :
    is_channel
        ⟨1001, false, false, some ⟨false, false, some "football_chat"⟩,
          "football_chat", "", "", ""⟩ = false := by decide

/-- Claim C4 amended: when no earlier check fires (not a `Channel`
instance, entity looked up, not broadcast, not megagroup), `is_channel`
returns channel exactly when the entity's username is present, non-empty
and case-insensitively contains the single substring "channel", and the
rule reported is then the username rule. -/
theorem c4_username_rule_amended (p : Participant) (u : Entity)
    (he : p.entity = some u) (hc : p.isChannelInstance = false)
    (hbr : u.broadcast = false) (hm : u.megagroup = false) :
    is_channel p = usernameChannelSignal u.username ∧
    is_channel_rule p =
      (if usernameChannelSignal u.username then some ChannelRule.usernameChannel
       else none) := by
  constructor
  · simp [is_channel, hc, he, hbr, hm]
  · simp [is_channel_rule, hc, he, hbr, hm]

/-- Claim C4 amended witness: a participant whose entity username is
"MyChannel" is classified as a channel via the username rule. -/
theorem c4_username_rule_amended_witness :
    is_channel
        ⟨99, false, false, some ⟨false, false, some "MyChannel"⟩,
          "", "", "", ""⟩
      = usernameChannelSignal (some "MyChannel") ∧
    is_channel_rule
        ⟨99, false, false, some ⟨false, false, some "MyChannel"⟩,
          "", "", "", ""⟩
      = (if usernameChannelSignal (some "MyChannel")
         then some ChannelRule.usernameChannel else none) :=
  c4_username_rule_amended
    ⟨99, false, false, some ⟨false, false, some "MyChannel"⟩, "", "", "", ""⟩
    ⟨false, false, some "MyChannel"⟩ rfl rfl rfl rfl

/-- Claim C5 counterexample: the record the claim says must be classified
as a channel via the title rule — title "News Desk", empty first and last
name, no channel signal from the platform — is NOT classified as a
channel: the source `is_channel` has no title rule. -/
theorem c5_counterexample :
    is_channel
        ⟨2002, false, false, some ⟨false, false, none⟩, "", "", "",
          "News Desk"⟩ = false := by decide

/-- Claim C5 amended: `is_channel` never consults `title`, `first_name`
or `last_name`: replacing them by any values leaves both the boolean
classification and the reported rule unchanged, so no
title-without-personal-name rule exists in the source. -/
theorem c5_no_title_rule_amended (p : Participant) (t f l : String) :
    is_channel { p with title := t, first_name := f, last_name := l }
      = is_channel p ∧
    is_channel_rule { p with title := t, first_name := f, last_name := l }
      = is_channel_rule p := by
  cases p
  exact ⟨rfl, rfl⟩

/-- Claim C6: the display name derived by `check_and_ban_channels`
follows the preference order title, then first plus last name when both
are non-empty, then first name alone when non-empty, then the placeholder
"Channel" followed by the id. -/
theorem c6_display_name_order (title first_name last_name : String)
    (user_id : Int) :
    (title ≠ "" → display_name title first_name last_name user_id = title) ∧
    (title = "" → first_name ≠ "" → last_name ≠ "" →
      display_name title first_name last_name user_id
        = first_name ++ " " ++ last_name) ∧
    (title = "" → first_name ≠ "" → last_name = "" →
      display_name title first_name last_name user_id = first_name) ∧
    (title = "" → first_name = "" →
      display_name title first_name last_name user_id
        = "Channel" ++ toString user_id) := by
  unfold display_name
  refine ⟨fun h1 => by simp [h1], fun h1 h2 h3 => by simp [h1, h2, h3],
    fun h1 h2 h3 => by simp [h1, h2, h3], fun h1 h2 => by simp [h1, h2]⟩

/-- Claim C6 witness: the four preference branches at concrete inputs. -/
theorem c6_display_name_order_witness :
    display_name "News Desk" "John" "Smith" 3 = "News Desk" ∧
    display_name "" "John" "Smith" 3 = "John" ++ " " ++ "Smith" ∧
    display_name "" "John" "" 3 = "John" ∧
    display_name "" "" "Smith" 3 = "Channel" ++ toString (3 : Int) :=
  ⟨(c6_display_name_order "News Desk" "John" "Smith" 3).1 (by decide),
   (c6_display_name_order "" "John" "Smith" 3).2.1 rfl (by decide) (by decide),
   (c6_display_name_order "" "John" "" 3).2.2.1 rfl (by decide) rfl,
   (c6_display_name_order "" "" "Smith" 3).2.2.2 rfl rfl⟩

/-- Claim C7: the per-identity burst history is bounded by the capacity
10 after any sequence of events; every append keeps a suffix of the
appended history (the most recent entries, oldest evicted first); and the
concrete run of 11 spread-out events retains exactly the last 10. -/
theorem c7_history_capacity :
    (∀ (events : List Int) (idt j : Int),
      ((runBurst observedBurstParams emptyBurst idt events) j).length ≤ 10) ∧
    (∀ (cap : Nat) (hist : List Int) (t : Int),
      dequeAppend cap hist t <:+ hist ++ [t]) ∧
    runBurst observedBurstParams emptyBurst 1
        [0, 100, 200, 300, 400, 500, 600, 700, 800, 900, 1000] 1
      = [100, 200, 300, 400, 500, 600, 700, 800, 900, 1000] := by
  refine ⟨?_, ?_, by decide⟩
  · intro events idt j
    exact runBurst_inv observedBurstParams events emptyBurst idt
      (fun _ => by simp [emptyBurst, observedBurstParams]) j
  · intro cap hist t
    exact List.drop_suffix _ _

/-- Claim C8: classification is a pure function of the record: equal
records yield equal `is_channel` results and equal reported rules. -/
theorem c8_classify_deterministic (p q : Participant) (h : p = q) :
    is_channel p = is_channel q ∧ is_channel_rule p = is_channel_rule q := by
  subst h
  exact ⟨rfl, rfl⟩

/-- Claim C8 witness: at a concrete record. -/
theorem c8_classify_deterministic_witness :
    is_channel
        ⟨12, false, false, some ⟨false, true, some "abc"⟩, "abc", "a", "b", ""⟩
      = is_channel
        ⟨12, false, false, some ⟨false, true, some "abc"⟩, "abc", "a", "b", ""⟩ ∧
    is_channel_rule
        ⟨12, false, false, some ⟨false, true, some "abc"⟩, "abc", "a", "b", ""⟩
      = is_channel_rule
        ⟨12, false, false, some ⟨false, true, some "abc"⟩, "abc", "a", "b", ""⟩ :=
  c8_classify_deterministic
    ⟨12, false, false, some ⟨false, true, some "abc"⟩, "abc", "a", "b", ""⟩
    ⟨12, false, false, some ⟨false, true, some "abc"⟩, "abc", "a", "b", ""⟩ rfl

/-- Claim C9: when the entity lookup raises (and the participant is not
itself a `Channel` instance, so the fallible lookup actually runs), the
exception is caught and `is_channel` returns false rather than
propagating the error. -/
theorem c9_error_not_channel (p : Participant)
    (hc : p.isChannelInstance = false) (he : p.entity = none) :
    is_channel p = false := by
  simp [is_channel, hc, he]

/-- Claim C9 witness: a record whose lookup failed is not a channel. -/
theorem c9_error_not_channel_witness :
    is_channel ⟨55, false, false, none, "user55", "", "", ""⟩ = false :=
  c9_error_not_channel ⟨55, false, false, none, "user55", "", "", ""⟩ rfl rfl

/-- Claim C10: `ban_channel` is idempotent on an already-banned id — it
returns false, issues no ban action and leaves the set unchanged — and
the `banned_channels` set only ever grows. -/
theorem c10_ban_idempotent (rpcOk : Bool) (banned : Finset Int)
    (channel_id : Int) :
    (channel_id ∈ banned →
      ban_channel rpcOk banned channel_id = ⟨banned, false, false⟩) ∧
    banned ⊆ (ban_channel rpcOk banned channel_id).banned := by
  constructor
  · intro hmem
    simp [ban_channel, hmem]
  · unfold ban_channel
    split
    · exact Finset.Subset.refl banned
    · split
      · exact Finset.subset_insert channel_id banned
      · exact Finset.Subset.refl banned

/-- Claim C10 witness: id 5 already banned yields no action and no
change; the set is preserved. -/
theorem c10_ban_idempotent_witness :
    ban_channel true ({5} : Finset Int) 5 = ⟨({5} : Finset Int), false, false⟩ ∧
    ({5} : Finset Int) ⊆ (ban_channel true ({5} : Finset Int) 5).banned :=
  ⟨(c10_ban_idempotent true ({5} : Finset Int) 5).1 (by decide),
   (c10_ban_idempotent true ({5} : Finset Int) 5).2⟩

end VoiceChatLogs
